import Mathlib

/-!
Verification of the CRM entity store and its derived views.

The development shallowly embeds the client-side data store (four record
collections with add/update/delete per collection), the login flow of the
session store, the list-filtering views, the dashboard/analytics ratio
computations, and the pipeline drag-and-drop stage-transition handler.

Modelling conventions:
* JS `Date` values are milliseconds since the epoch, modelled as `Nat`.
  The `new Date()` calls performed inside one synchronous mutation are
  modelled as a single wall-clock value `now` supplied to the operation.
* `crypto.randomUUID()` is modelled by a string parameter `fid` supplied
  to each add operation (the value the generator returned for that call).
* JS numbers carrying monetary values and ratios are modelled as `ℚ`.
* A TS function whose body ends without a `return` statement hands
  `undefined` back to its caller; that return value is modelled as
  `none : Option String` where a claim is about the returned value.
* `Partial<T>` arguments are records with one `Option` per field of `T`;
  object spread `{...a, ...b}` keeps a field of `a` exactly when `b` does
  not supply it.
-/

namespace CRM

/-- JS Date, as milliseconds since the epoch. -/
abbrev Time := Nat

inductive LeadStatus where
  | new | qualified | converted | lost
deriving DecidableEq, Repr

inductive Stage where
  | prospecting | qualification | proposal | negotiation | closedWon | closedLost
deriving DecidableEq, Repr

/-- The string literal of a stage, as it appears in the source. -/
def Stage.str : Stage → String
  | .prospecting => "prospecting"
  | .qualification => "qualification"
  | .proposal => "proposal"
  | .negotiation => "negotiation"
  | .closedWon => "closed-won"
  | .closedLost => "closed-lost"

inductive TaskPriority where
  | low | medium | high
deriving DecidableEq, Repr

/-- The string literal of a task priority, as it appears in the source. -/
def TaskPriority.str : TaskPriority → String
  | .low => "low"
  | .medium => "medium"
  | .high => "high"

inductive TaskStatus where
  | pending | inProgress | completed
deriving DecidableEq, Repr

/-- The string literal of a task status, as it appears in the source. -/
def TaskStatus.str : TaskStatus → String
  | .pending => "pending"
  | .inProgress => "in-progress"
  | .completed => "completed"

/-- The string literal of a lead status, as it appears in the source. -/
def LeadStatus.str : LeadStatus → String
  | .new => "new"
  | .qualified => "qualified"
  | .converted => "converted"
  | .lost => "lost"

inductive RelType where
  | contact | lead | deal
deriving DecidableEq, Repr

structure RelatedTo where
  type : RelType
  id : String
deriving DecidableEq, Repr

/-- interface Contact of crmStore.ts. -/
structure Contact where
  id : String
  name : String
  email : String
  phone : String
  company : String
  position : String
  tags : List String
  createdAt : Time
  updatedAt : Time
  notes : String
deriving DecidableEq, Repr

/-- interface Lead of crmStore.ts. -/
structure Lead where
  id : String
  name : String
  email : String
  phone : String
  company : String
  value : ℚ
  status : LeadStatus
  assignedTo : String
  source : String
  createdAt : Time
  updatedAt : Time
  notes : String
deriving DecidableEq, Repr

/-- interface Deal of crmStore.ts. -/
structure Deal where
  id : String
  title : String
  value : ℚ
  stage : Stage
  contactId : String
  assignedTo : String
  closeDate : Time
  probability : ℚ
  createdAt : Time
  updatedAt : Time
  notes : String
deriving DecidableEq, Repr

/-- interface Task of crmStore.ts. -/
structure Task where
  id : String
  title : String
  description : String
  dueDate : Time
  priority : TaskPriority
  status : TaskStatus
  assignedTo : String
  relatedTo : Option RelatedTo
  createdAt : Time
  updatedAt : Time
deriving DecidableEq, Repr

/-- Omit Contact id createdAt updatedAt: the argument of addContact. -/
structure ContactInput where
  name : String
  email : String
  phone : String
  company : String
  position : String
  tags : List String
  notes : String
deriving DecidableEq, Repr

/-- Omit Lead id createdAt updatedAt: the argument of addLead. -/
structure LeadInput where
  name : String
  email : String
  phone : String
  company : String
  value : ℚ
  status : LeadStatus
  assignedTo : String
  source : String
  notes : String
deriving DecidableEq, Repr

/-- Omit Deal id createdAt updatedAt: the argument of addDeal. -/
structure DealInput where
  title : String
  value : ℚ
  stage : Stage
  contactId : String
  assignedTo : String
  closeDate : Time
  probability : ℚ
  notes : String
deriving DecidableEq, Repr

/-- Omit Task id createdAt updatedAt: the argument of addTask. -/
structure TaskInput where
  title : String
  description : String
  dueDate : Time
  priority : TaskPriority
  status : TaskStatus
  assignedTo : String
  relatedTo : Option RelatedTo
deriving DecidableEq, Repr

/-- Partial Contact: every field optional, present fields override on spread. -/
structure ContactUpdate where
  id : Option String := none
  name : Option String := none
  email : Option String := none
  phone : Option String := none
  company : Option String := none
  position : Option String := none
  tags : Option (List String) := none
  createdAt : Option Time := none
  updatedAt : Option Time := none
  notes : Option String := none
deriving DecidableEq, Repr

/-- Partial Lead. -/
structure LeadUpdate where
  id : Option String := none
  name : Option String := none
  email : Option String := none
  phone : Option String := none
  company : Option String := none
  value : Option ℚ := none
  status : Option LeadStatus := none
  assignedTo : Option String := none
  source : Option String := none
  createdAt : Option Time := none
  updatedAt : Option Time := none
  notes : Option String := none
deriving DecidableEq, Repr

/-- Partial Deal. -/
structure DealUpdate where
  id : Option String := none
  title : Option String := none
  value : Option ℚ := none
  stage : Option Stage := none
  contactId : Option String := none
  assignedTo : Option String := none
  closeDate : Option Time := none
  probability : Option ℚ := none
  createdAt : Option Time := none
  updatedAt : Option Time := none
  notes : Option String := none
deriving DecidableEq, Repr

/-- Partial Task. In TS a present relatedTo key may itself be undefined,
hence the doubled Option on that field. -/
structure TaskUpdate where
  id : Option String := none
  title : Option String := none
  description : Option String := none
  dueDate : Option Time := none
  priority : Option TaskPriority := none
  status : Option TaskStatus := none
  assignedTo : Option String := none
  relatedTo : Option (Option RelatedTo) := none
  createdAt : Option Time := none
  updatedAt : Option Time := none
deriving DecidableEq, Repr

/-- Spread merge of updateContact: fields present in the partial override,
and the trailing updatedAt assignment overrides everything with `now`. -/
def mergeContact (c : Contact) (u : ContactUpdate) (now : Time) : Contact :=
  { id := u.id.getD c.id
    name := u.name.getD c.name
    email := u.email.getD c.email
    phone := u.phone.getD c.phone
    company := u.company.getD c.company
    position := u.position.getD c.position
    tags := u.tags.getD c.tags
    createdAt := u.createdAt.getD c.createdAt
    updatedAt := now
    notes := u.notes.getD c.notes }

/-- Spread merge of updateLead. -/
def mergeLead (l : Lead) (u : LeadUpdate) (now : Time) : Lead :=
  { id := u.id.getD l.id
    name := u.name.getD l.name
    email := u.email.getD l.email
    phone := u.phone.getD l.phone
    company := u.company.getD l.company
    value := u.value.getD l.value
    status := u.status.getD l.status
    assignedTo := u.assignedTo.getD l.assignedTo
    source := u.source.getD l.source
    createdAt := u.createdAt.getD l.createdAt
    updatedAt := now
    notes := u.notes.getD l.notes }

/-- Spread merge of updateDeal. -/
def mergeDeal (d : Deal) (u : DealUpdate) (now : Time) : Deal :=
  { id := u.id.getD d.id
    title := u.title.getD d.title
    value := u.value.getD d.value
    stage := u.stage.getD d.stage
    contactId := u.contactId.getD d.contactId
    assignedTo := u.assignedTo.getD d.assignedTo
    closeDate := u.closeDate.getD d.closeDate
    probability := u.probability.getD d.probability
    createdAt := u.createdAt.getD d.createdAt
    updatedAt := now
    notes := u.notes.getD d.notes }

/-- Spread merge of updateTask. -/
def mergeTask (t : Task) (u : TaskUpdate) (now : Time) : Task :=
  { id := u.id.getD t.id
    title := u.title.getD t.title
    description := u.description.getD t.description
    dueDate := u.dueDate.getD t.dueDate
    priority := u.priority.getD t.priority
    status := u.status.getD t.status
    assignedTo := u.assignedTo.getD t.assignedTo
    relatedTo := u.relatedTo.getD t.relatedTo
    createdAt := u.createdAt.getD t.createdAt
    updatedAt := now }

/-- The CRMState aggregate: the four collections held by the store. -/
structure CRMState where
  contacts : List Contact
  leads : List Lead
  deals : List Deal
  tasks : List Task
deriving DecidableEq, Repr

/-- The store's initial state: four empty collections. -/
def emptyCRM : CRMState := ⟨[], [], [], []⟩

/-- addContact. `fid` is the value crypto.randomUUID() returned for this
call and `now` the call's wall-clock time. The first component is the JS
return value: the body has no return statement, so the caller receives
undefined. -/
def addContact (c : ContactInput) (fid : String) (now : Time) (s : CRMState) :
    Option String × CRMState :=
  let newContact : Contact :=
    { id := fid
      name := c.name
      email := c.email
      phone := c.phone
      company := c.company
      position := c.position
      tags := c.tags
      createdAt := now
      updatedAt := now
      notes := c.notes }
  (none, { s with contacts := s.contacts ++ [newContact] })

/-- updateContact: map over the collection, merging the partial over the
record whose id matches. -/
def updateContact (iD : String) (u : ContactUpdate) (now : Time) (s : CRMState) :
    CRMState :=
  { s with contacts := s.contacts.map fun c =>
      if c.id == iD then mergeContact c u now else c }

/-- deleteContact: keep the records whose id differs. -/
def deleteContact (iD : String) (s : CRMState) : CRMState :=
  { s with contacts := s.contacts.filter fun c => c.id != iD }

/-- addLead, as addContact. -/
def addLead (l : LeadInput) (fid : String) (now : Time) (s : CRMState) :
    Option String × CRMState :=
  let newLead : Lead :=
    { id := fid
      name := l.name
      email := l.email
      phone := l.phone
      company := l.company
      value := l.value
      status := l.status
      assignedTo := l.assignedTo
      source := l.source
      createdAt := now
      updatedAt := now
      notes := l.notes }
  (none, { s with leads := s.leads ++ [newLead] })

/-- updateLead. -/
def updateLead (iD : String) (u : LeadUpdate) (now : Time) (s : CRMState) :
    CRMState :=
  { s with leads := s.leads.map fun l =>
      if l.id == iD then mergeLead l u now else l }

/-- deleteLead. -/
def deleteLead (iD : String) (s : CRMState) : CRMState :=
  { s with leads := s.leads.filter fun l => l.id != iD }

/-- addDeal, as addContact. -/
def addDeal (d : DealInput) (fid : String) (now : Time) (s : CRMState) :
    Option String × CRMState :=
  let newDeal : Deal :=
    { id := fid
      title := d.title
      value := d.value
      stage := d.stage
      contactId := d.contactId
      assignedTo := d.assignedTo
      closeDate := d.closeDate
      probability := d.probability
      createdAt := now
      updatedAt := now
      notes := d.notes }
  (none, { s with deals := s.deals ++ [newDeal] })

/-- updateDeal. -/
def updateDeal (iD : String) (u : DealUpdate) (now : Time) (s : CRMState) :
    CRMState :=
  { s with deals := s.deals.map fun d =>
      if d.id == iD then mergeDeal d u now else d }

/-- deleteDeal. -/
def deleteDeal (iD : String) (s : CRMState) : CRMState :=
  { s with deals := s.deals.filter fun d => d.id != iD }

/-- addTask, as addContact. -/
def addTask (t : TaskInput) (fid : String) (now : Time) (s : CRMState) :
    Option String × CRMState :=
  let newTask : Task :=
    { id := fid
      title := t.title
      description := t.description
      dueDate := t.dueDate
      priority := t.priority
      status := t.status
      assignedTo := t.assignedTo
      relatedTo := t.relatedTo
      createdAt := now
      updatedAt := now }
  (none, { s with tasks := s.tasks ++ [newTask] })

/-- updateTask. -/
def updateTask (iD : String) (u : TaskUpdate) (now : Time) (s : CRMState) :
    CRMState :=
  { s with tasks := s.tasks.map fun t =>
      if t.id == iD then mergeTask t u now else t }

/-- deleteTask. -/
def deleteTask (iD : String) (s : CRMState) : CRMState :=
  { s with tasks := s.tasks.filter fun t => t.id != iD }

/-! Derived views: ratios of Dashboard.tsx and Analytics. -/

/-- Dashboard.tsx: count of leads with status converted. -/
def convertedLeads (leads : List Lead) : Nat :=
  (leads.filter fun l => l.status == .converted).length

/-- Dashboard.tsx / Analytics: conversion rate, guarded against an empty
lead list. -/
def conversionRate (leads : List Lead) : ℚ :=
  if leads.length > 0 then
    ((convertedLeads leads : ℚ) / (leads.length : ℚ)) * 100
  else 0

/-- Analytics: closed-won deals. -/
def closedWonDeals (deals : List Deal) : List Deal :=
  deals.filter fun d => d.stage == .closedWon

/-- Analytics: totalRevenue, a reduce over the closed-won deals. -/
def totalRevenue (deals : List Deal) : ℚ :=
  (closedWonDeals deals).foldl (fun sum d => sum + d.value) 0

/-- Analytics: avgDealSize, guarded against a zero closed-won count. -/
def avgDealSize (deals : List Deal) : ℚ :=
  if (closedWonDeals deals).length > 0 then
    totalRevenue deals / ((closedWonDeals deals).length : ℚ)
  else 0

/-! List filtering of the Tasks and Leads pages. -/

/-- Boolean prefix test on character lists. -/
def isPrefixOfB : List Char → List Char → Bool
  | [], _ => true
  | _ :: _, [] => false
  | a :: as, b :: bs => a == b && isPrefixOfB as bs

/-- JS String.prototype.includes: the needle occurs contiguously in the
haystack (always true for an empty needle). -/
def containsSub : List Char → List Char → Bool
  | [], needle => isPrefixOfB needle []
  | c :: t, needle => isPrefixOfB needle (c :: t) || containsSub t needle

/-- JS s.includes(sub). -/
def jsIncludes (s sub : String) : Bool :=
  containsSub s.toList sub.toList

/-- JS s.toLowerCase() (ASCII case mapping). -/
def toLowerStr (s : String) : String :=
  ⟨s.toList.map Char.toLower⟩

/-- filteredTasks of the Tasks page: search over title and description,
conjoined with the status and priority exact-match filters whose inactive
value is the sentinel string all. -/
def filteredTasks (tasks : List Task) (searchTerm statusFilter priorityFilter : String) :
    List Task :=
  tasks.filter fun task =>
    let matchesSearch :=
      jsIncludes (toLowerStr task.title) (toLowerStr searchTerm) ||
      jsIncludes (toLowerStr task.description) (toLowerStr searchTerm)
    let matchesStatus := statusFilter == "all" || task.status.str == statusFilter
    let matchesPriority := priorityFilter == "all" || task.priority.str == priorityFilter
    matchesSearch && matchesStatus && matchesPriority

/-- filteredLeads of the Leads page: search over name, email and company,
conjoined with the status exact-match filter. -/
def filteredLeads (leads : List Lead) (searchTerm statusFilter : String) :
    List Lead :=
  leads.filter fun lead =>
    let matchesSearch :=
      jsIncludes (toLowerStr lead.name) (toLowerStr searchTerm) ||
      jsIncludes (toLowerStr lead.email) (toLowerStr searchTerm) ||
      jsIncludes (toLowerStr lead.company) (toLowerStr searchTerm)
    let matchesStatus := statusFilter == "all" || lead.status.str == statusFilter
    matchesSearch && matchesStatus

/-! Pipeline drag-and-drop (Pipeline page). -/

/-- pipelineStages.find on its id field: the drop-target id is one of the
six fixed stage-column ids, or not. -/
def stageOfId (s : String) : Option Stage :=
  if s == "prospecting" then some .prospecting
  else if s == "qualification" then some .qualification
  else if s == "proposal" then some .proposal
  else if s == "negotiation" then some .negotiation
  else if s == "closed-won" then some .closedWon
  else if s == "closed-lost" then some .closedLost
  else none

/-- Target-stage resolution of handleDragEnd: a stage column wins,
otherwise the stage of the deal dropped onto; the source's empty-string
sentinel for newStage is rendered as none. -/
def resolveTarget (deals : List Deal) (overId : String) : Option Stage :=
  match stageOfId overId with
  | some st => some st
  | none => (deals.find? fun d => d.id == overId).map Deal.stage

/-- handleDragEnd of the Pipeline page: the result is the single
updateDeal call the handler issues (deal id and new stage), or none when
the handler performs no store mutation. `activeId` is the dragged deal's
drag id, `over` the drop target's id if any. -/
def handleDragEnd (deals : List Deal) (activeId : String) (over : Option String) :
    Option (String × Stage) :=
  match over with
  | none => none
  | some overId =>
    match resolveTarget deals overId with
    | none => none
    | some st =>
      if activeId != overId then
        match deals.find? fun d => d.id == activeId with
        | some deal => if deal.stage != st then some (deal.id, st) else none
        | none => none
      else none

/-! Session store (authStore.ts). -/

inductive UserRole where
  | admin | manager | salesperson
deriving DecidableEq, Repr

/-- interface User of authStore.ts. -/
structure User where
  id : String
  name : String
  email : String
  role : UserRole
  avatar : Option String := none
deriving DecidableEq, Repr

/-- The session store's observable fields. -/
structure AuthState where
  user : Option User
  isAuthenticated : Bool
deriving DecidableEq, Repr

/-- login of authStore.ts. The fixed 1000 ms setTimeout resolves
unconditionally and is collapsed in this embedding; afterwards the mock
user is fabricated from the email alone and true is returned. The
password parameter is received and never read. -/
def login (email _password : String) : Bool × AuthState :=
  let mockUser : User :=
    { id := "1"
      name := if email == "admin@crm.com" then "Admin User" else "John Doe"
      email := email
      role :=
        if email == "admin@crm.com" then .admin
        else if email == "manager@crm.com" then .manager
        else .salesperson
      avatar := none }
  (true, { user := some mockUser, isAuthenticated := true })

/-! Operation traces over the entity store, for the reachability
invariants. Each operation carries the argument the caller passed; adds
additionally carry the id the UUID generator returned for that call. -/

inductive Op where
  | addC (c : ContactInput) (fid : String)
  | updC (iD : String) (u : ContactUpdate)
  | delC (iD : String)
  | addL (l : LeadInput) (fid : String)
  | updL (iD : String) (u : LeadUpdate)
  | delL (iD : String)
  | addD (d : DealInput) (fid : String)
  | updD (iD : String) (u : DealUpdate)
  | delD (iD : String)
  | addT (t : TaskInput) (fid : String)
  | updT (iD : String) (u : TaskUpdate)
  | delT (iD : String)

/-- Apply one store operation at wall-clock time `now`. -/
def applyOp : Op → Time → CRMState → CRMState
  | .addC c fid, now, s => (addContact c fid now s).2
  | .updC iD u, now, s => updateContact iD u now s
  | .delC iD, _, s => deleteContact iD s
  | .addL l fid, now, s => (addLead l fid now s).2
  | .updL iD u, now, s => updateLead iD u now s
  | .delL iD, _, s => deleteLead iD s
  | .addD d fid, now, s => (addDeal d fid now s).2
  | .updD iD u, now, s => updateDeal iD u now s
  | .delD iD, _, s => deleteDeal iD s
  | .addT t fid, now, s => (addTask t fid now s).2
  | .updT iD u, now, s => updateTask iD u now s
  | .delT iD, _, s => deleteTask iD s

/-- The generator guarantee of crypto.randomUUID for an add issued in
state `s`: the returned id does not collide inside its collection. -/
def freshOK : Op → CRMState → Prop
  | .addC _ fid, s => ∀ x ∈ s.contacts, x.id ≠ fid
  | .addL _ fid, s => ∀ x ∈ s.leads, x.id ≠ fid
  | .addD _ fid, s => ∀ x ∈ s.deals, x.id ≠ fid
  | .addT _ fid, s => ∀ x ∈ s.tasks, x.id ≠ fid
  | _, _ => True

/-- The update partial carries neither id nor createdAt, as holds for
every update issued anywhere in this program. -/
def safeUpdate : Op → Prop
  | .updC _ u => u.id = none ∧ u.createdAt = none
  | .updL _ u => u.id = none ∧ u.createdAt = none
  | .updD _ u => u.id = none ∧ u.createdAt = none
  | .updT _ u => u.id = none ∧ u.createdAt = none
  | _ => True

/-- States reachable from the empty store by operations with fresh
generated ids, nondecreasing wall-clock times and id/createdAt-free
update partials; the Time records the last mutation's clock. -/
inductive Reach : CRMState → Time → Prop where
  | init : Reach emptyCRM 0
  | step {s : CRMState} {t : Time} (op : Op) (now : Time) :
      Reach s t → t ≤ now → freshOK op s → safeUpdate op →
      Reach (applyOp op now s) now

/-! Concrete records used to instantiate the theorems. -/

/-- A concrete contact input. -/
def exContactInput : ContactInput :=
  { name := "Ada", email := "ada@x.com", phone := "1", company := "X",
    position := "CTO", tags := [], notes := "" }

/-- A second concrete contact input. -/
def exContactInput2 : ContactInput :=
  { name := "Bob", email := "bob@x.com", phone := "2", company := "X",
    position := "CEO", tags := [], notes := "" }

/-- A concrete stored contact with id a, created at 5, updated at 7. -/
def exContact : Contact :=
  { id := "a", name := "Ada", email := "ada@x.com", phone := "1", company := "X",
    position := "CTO", tags := [], createdAt := 5, updatedAt := 7, notes := "" }

/-- A store holding exactly exContact. -/
def exState : CRMState := { contacts := [exContact], leads := [], deals := [], tasks := [] }

/-- A well-typed partial that supplies only createdAt. -/
def exUpdateCreatedAt : ContactUpdate := { createdAt := some 10 }

/-- A well-typed partial that reassigns id and createdAt. -/
def exUpdateBad : ContactUpdate := { id := some "a", createdAt := some 100 }

/-- A partial that supplies only the name. -/
def exUpdateName : ContactUpdate := { name := some "Ada L." }

/-- The store after two adds with fresh ids a and b followed by an
update of b through the well-typed partial that reassigns id and
createdAt. -/
def exBadState : CRMState :=
  updateContact "b" exUpdateBad 2
    (addContact exContactInput2 "b" 1 (addContact exContactInput "a" 0 emptyCRM).2).2

/-- A deal whose id happens to equal the prospecting stage-column id. -/
def exDealPros : Deal :=
  { id := "prospecting", title := "T", value := 10, stage := .proposal,
    contactId := "c", assignedTo := "A", closeDate := 0, probability := 50,
    createdAt := 0, updatedAt := 0, notes := "" }

/-- An ordinary deal in stage prospecting. -/
def exDeal : Deal :=
  { id := "d1", title := "D", value := 500, stage := .prospecting,
    contactId := "c", assignedTo := "A", closeDate := 0, probability := 50,
    createdAt := 0, updatedAt := 0, notes := "" }

/-- A closed-won deal of value 1000. -/
def exDealWon : Deal :=
  { id := "d2", title := "W", value := 1000, stage := .closedWon,
    contactId := "c", assignedTo := "A", closeDate := 0, probability := 90,
    createdAt := 0, updatedAt := 0, notes := "" }

/-- A converted lead. -/
def exLead : Lead :=
  { id := "l1", name := "Lea", email := "lea@x.com", phone := "3", company := "Y",
    value := 1000, status := .converted, assignedTo := "A", source := "web",
    createdAt := 0, updatedAt := 0, notes := "" }

/-! General lemmas about the collection transformers. -/

theorem map_if_eq_self {α : Type} {l : List α} {p : α → Bool} {f : α → α}
    (h : ∀ x ∈ l, p x = false) :
    (l.map fun x => if p x then f x else x) = l := by
  induction l with
  | nil => rfl
  | cons a t ih =>
    have ha := h a (by simp)
    have ht : ∀ x ∈ t, p x = false := fun x hx => h x (by simp [hx])
    simp [ha, ih ht]

theorem map_proj_if_eq {α β : Type} (l : List α) (g : α → β) (p : α → Bool) (f : α → α)
    (hf : ∀ x ∈ l, g (f x) = g x) :
    (l.map fun x => if p x then f x else x).map g = l.map g := by
  rw [List.map_map]
  apply List.map_congr_left
  intro a ha
  by_cases hp : p a
  · simp [hp, hf a ha]
  · simp [hp]

theorem times_bound_map {α : Type} (l : List α) (p : α → Bool) (f : α → α)
    (cA uA : α → Time) (t now : Time) (ht : t ≤ now)
    (hb : ∀ x ∈ l, cA x ≤ uA x ∧ uA x ≤ t)
    (hf : ∀ x ∈ l, cA (f x) = cA x ∧ uA (f x) = now) :
    ∀ y ∈ l.map fun x => if p x then f x else x,
      cA y ≤ uA y ∧ uA y ≤ now := by
  intro y hy
  rcases List.mem_map.1 hy with ⟨x, hx, rfl⟩
  by_cases hp : p x
  · simp only [hp, if_true]
    refine ⟨?_, ?_⟩
    · rw [(hf x hx).1, (hf x hx).2]
      exact le_trans (hb x hx).1 (le_trans (hb x hx).2 ht)
    · rw [(hf x hx).2]
  · simp only [hp, if_false]
    exact ⟨(hb x hx).1, le_trans (hb x hx).2 ht⟩

theorem times_bound_sub {α : Type} {l l' : List α} (cA uA : α → Time) {t now : Time}
    (ht : t ≤ now) (hsub : ∀ y ∈ l', y ∈ l)
    (hb : ∀ x ∈ l, cA x ≤ uA x ∧ uA x ≤ t) :
    ∀ y ∈ l', cA y ≤ uA y ∧ uA y ≤ now := by
  intro y hy
  exact ⟨(hb y (hsub y hy)).1, le_trans (hb y (hsub y hy)).2 ht⟩

theorem nodup_ids_append {α : Type} {l : List α} (g : α → String) {a : α}
    (hn : (l.map g).Nodup) (hfresh : ∀ x ∈ l, g x ≠ g a) :
    ((l ++ [a]).map g).Nodup := by
  rw [List.map_append, List.nodup_append]
  refine ⟨hn, by simp, ?_⟩
  intro y hy
  rcases List.mem_map.1 hy with ⟨x, hx, rfl⟩
  simp only [List.map_cons, List.map_nil, List.mem_singleton]
  exact hfresh x hx

theorem nodup_ids_filter {α : Type} {l : List α} (g : α → String) (p : α → Bool)
    (hn : (l.map g).Nodup) : ((l.filter p).map g).Nodup :=
  List.Nodup.sublist (List.Sublist.map g (List.filter_sublist l)) hn

/-- C10: every mutation operation targeting one collection leaves the
other three collections of the store exactly unchanged; in particular
deleting a contact never modifies any deal or task. -/
theorem C10_cross_collection_frame :
    ∀ (s : CRMState) (now : Time) (fid iD : String),
      (∀ c : ContactInput,
        (addContact c fid now s).2.leads = s.leads ∧
        (addContact c fid now s).2.deals = s.deals ∧
        (addContact c fid now s).2.tasks = s.tasks) ∧
      (∀ u : ContactUpdate,
        (updateContact iD u now s).leads = s.leads ∧
        (updateContact iD u now s).deals = s.deals ∧
        (updateContact iD u now s).tasks = s.tasks) ∧
      ((deleteContact iD s).leads = s.leads ∧
        (deleteContact iD s).deals = s.deals ∧
        (deleteContact iD s).tasks = s.tasks) ∧
      (∀ l : LeadInput,
        (addLead l fid now s).2.contacts = s.contacts ∧
        (addLead l fid now s).2.deals = s.deals ∧
        (addLead l fid now s).2.tasks = s.tasks) ∧
      (∀ u : LeadUpdate,
        (updateLead iD u now s).contacts = s.contacts ∧
        (updateLead iD u now s).deals = s.deals ∧
        (updateLead iD u now s).tasks = s.tasks) ∧
      ((deleteLead iD s).contacts = s.contacts ∧
        (deleteLead iD s).deals = s.deals ∧
        (deleteLead iD s).tasks = s.tasks) ∧
      (∀ d : DealInput,
        (addDeal d fid now s).2.contacts = s.contacts ∧
        (addDeal d fid now s).2.leads = s.leads ∧
        (addDeal d fid now s).2.tasks = s.tasks) ∧
      (∀ u : DealUpdate,
        (updateDeal iD u now s).contacts = s.contacts ∧
        (updateDeal iD u now s).leads = s.leads ∧
        (updateDeal iD u now s).tasks = s.tasks) ∧
      ((deleteDeal iD s).contacts = s.contacts ∧
        (deleteDeal iD s).leads = s.leads ∧
        (deleteDeal iD s).tasks = s.tasks) ∧
      (∀ t : TaskInput,
        (addTask t fid now s).2.contacts = s.contacts ∧
        (addTask t fid now s).2.leads = s.leads ∧
        (addTask t fid now s).2.deals = s.deals) ∧
      (∀ u : TaskUpdate,
        (updateTask iD u now s).contacts = s.contacts ∧
        (updateTask iD u now s).leads = s.leads ∧
        (updateTask iD u now s).deals = s.deals) ∧
      ((deleteTask iD s).contacts = s.contacts ∧
        (deleteTask iD s).leads = s.leads ∧
        (deleteTask iD s).deals = s.deals) :=
  fun _ _ _ _ =>
    ⟨fun _ => ⟨rfl, rfl, rfl⟩, fun _ => ⟨rfl, rfl, rfl⟩, ⟨rfl, rfl, rfl⟩,
     fun _ => ⟨rfl, rfl, rfl⟩, fun _ => ⟨rfl, rfl, rfl⟩, ⟨rfl, rfl, rfl⟩,
     fun _ => ⟨rfl, rfl, rfl⟩, fun _ => ⟨rfl, rfl, rfl⟩, ⟨rfl, rfl, rfl⟩,
     fun _ => ⟨rfl, rfl, rfl⟩, fun _ => ⟨rfl, rfl, rfl⟩, ⟨rfl, rfl, rfl⟩⟩

/-- C3: update and delete with an id absent from the collection leave the
store exactly equal to its previous contents, and no exception is thrown
(all operations are total functions). -/
theorem C3_missing_id_noop :
    ∀ (iD : String) (now : Time) (s : CRMState),
      ((∀ x ∈ s.contacts, x.id ≠ iD) →
        (∀ u : ContactUpdate, updateContact iD u now s = s) ∧ deleteContact iD s = s) ∧
      ((∀ x ∈ s.leads, x.id ≠ iD) →
        (∀ u : LeadUpdate, updateLead iD u now s = s) ∧ deleteLead iD s = s) ∧
      ((∀ x ∈ s.deals, x.id ≠ iD) →
        (∀ u : DealUpdate, updateDeal iD u now s = s) ∧ deleteDeal iD s = s) ∧
      ((∀ x ∈ s.tasks, x.id ≠ iD) →
        (∀ u : TaskUpdate, updateTask iD u now s = s) ∧ deleteTask iD s = s) := by
  intro iD now s
  refine ⟨fun h => ⟨fun u => ?_, ?_⟩, fun h => ⟨fun u => ?_, ?_⟩,
    fun h => ⟨fun u => ?_, ?_⟩, fun h => ⟨fun u => ?_, ?_⟩⟩
  · unfold updateContact
    rw [map_if_eq_self fun x hx => by simp [h x hx]]
  · unfold deleteContact
    rw [List.filter_eq_self.2 fun x hx => by simp [h x hx]]
  · unfold updateLead
    rw [map_if_eq_self fun x hx => by simp [h x hx]]
  · unfold deleteLead
    rw [List.filter_eq_self.2 fun x hx => by simp [h x hx]]
  · unfold updateDeal
    rw [map_if_eq_self fun x hx => by simp [h x hx]]
  · unfold deleteDeal
    rw [List.filter_eq_self.2 fun x hx => by simp [h x hx]]
  · unfold updateTask
    rw [map_if_eq_self fun x hx => by simp [h x hx]]
  · unfold deleteTask
    rw [List.filter_eq_self.2 fun x hx => by simp [h x hx]]

/-- Witness for C3: a store holding one contact with id a is untouched by
an update and a delete aimed at the absent id b. -/
theorem C3_missing_id_noop_witness :
    updateContact "b" exUpdateName 0 exState = exState ∧
    deleteContact "b" exState = exState := by
  have h := (C3_missing_id_noop "b" 0 exState).1 (by decide)
  exact ⟨h.1 exUpdateName, h.2⟩

/-- C7: login always returns true, authenticates, and fabricates the user
from the email alone: role by exact match against the two privileged
addresses, otherwise salesperson; the outcome never depends on the
password. -/
theorem C7_login_always_succeeds :
    ∀ email password : String,
      (login email password).1 = true ∧
      (login email password).2.isAuthenticated = true ∧
      (∃ u : User, (login email password).2.user = some u ∧
        u.email = email ∧
        u.role = (if email == "admin@crm.com" then .admin
                  else if email == "manager@crm.com" then .manager
                  else .salesperson)) ∧
      (∀ password2 : String, login email password = login email password2) :=
  fun _ _ => ⟨rfl, rfl, ⟨_, rfl, rfl, rfl⟩, fun _ => rfl⟩

/-- C6: the conversion rate is the converted count over the total count
times 100 and is 0 on an empty lead list; the average closed-won deal
size is the closed-won revenue over the closed-won count and is 0 when
no deal is closed-won; every division performed has a nonzero divisor. -/
theorem C6_ratio_zero_guards :
    conversionRate [] = 0 ∧
    avgDealSize [] = 0 ∧
    (∀ leads : List Lead, leads ≠ [] →
      conversionRate leads = ((convertedLeads leads : ℚ) / (leads.length : ℚ)) * 100 ∧
        ((leads.length : ℚ) ≠ 0)) ∧
    (∀ deals : List Deal, closedWonDeals deals ≠ [] →
      avgDealSize deals = totalRevenue deals / ((closedWonDeals deals).length : ℚ) ∧
        (((closedWonDeals deals).length : ℚ) ≠ 0)) ∧
    (∀ deals : List Deal, closedWonDeals deals = [] → avgDealSize deals = 0) := by
  refine ⟨rfl, rfl, ?_, ?_, ?_⟩
  · intro leads h
    have hl : 0 < leads.length := List.length_pos.2 h
    exact ⟨by unfold conversionRate; rw [if_pos hl],
      Nat.cast_ne_zero.2 (Nat.pos_iff_ne_zero.1 hl)⟩
  · intro deals h
    have hl : 0 < (closedWonDeals deals).length := List.length_pos.2 h
    exact ⟨by unfold avgDealSize; rw [if_pos hl],
      Nat.cast_ne_zero.2 (Nat.pos_iff_ne_zero.1 hl)⟩
  · intro deals h
    unfold avgDealSize
    rw [h]
    rfl

/-- Witness for C6: a one-lead list with a converted lead yields rate
100, and a single closed-won deal of value 1000 yields average 1000. -/
theorem C6_ratio_zero_guards_witness :
    (conversionRate [exLead] = ((convertedLeads [exLead] : ℚ) / (([exLead] : List Lead).length : ℚ)) * 100 ∧
      ((([exLead] : List Lead).length : ℚ) ≠ 0)) ∧
    (avgDealSize [exDealWon] = totalRevenue [exDealWon] / ((closedWonDeals [exDealWon]).length : ℚ) ∧
      (((closedWonDeals [exDealWon]).length : ℚ) ≠ 0)) :=
  ⟨C6_ratio_zero_guards.2.2.1 [exLead] (by simp),
   C6_ratio_zero_guards.2.2.2.1 [exDealWon] (by simp [closedWonDeals, exDealWon])⟩

/-- C1 counterexample: the add operations are void — the TS body ends
without a return statement, so the caller receives undefined — hence the
claim that add returns the new record's id is false: here the appended
record's id is u1 yet nothing is returned. -/
theorem C1_add_counterexample :
    (addContact exContactInput "u1" 0 emptyCRM).2.contacts.map Contact.id = ["u1"] ∧
    (addContact exContactInput "u1" 0 emptyCRM).1 ≠ some "u1" := by
  constructor
  · rfl
  · simp [addContact]

/-- C1 (amended): an add call whose generated UUID does not collide with
an existing id appends exactly one record to the end of its collection;
the record's id is the generated one, distinct from every id already
present, its createdAt equals its updatedAt, and the operation returns
undefined (it is void), not the id. -/
theorem C1_add_appends :
    ∀ (fid : String) (now : Time) (s : CRMState),
      (∀ c : ContactInput, (∀ x ∈ s.contacts, x.id ≠ fid) →
        ∃ nc : Contact, (addContact c fid now s).2.contacts = s.contacts ++ [nc] ∧
          nc.id = fid ∧ (∀ x ∈ s.contacts, x.id ≠ nc.id) ∧
          nc.createdAt = nc.updatedAt ∧ (addContact c fid now s).1 = none) ∧
      (∀ l : LeadInput, (∀ x ∈ s.leads, x.id ≠ fid) →
        ∃ nl : Lead, (addLead l fid now s).2.leads = s.leads ++ [nl] ∧
          nl.id = fid ∧ (∀ x ∈ s.leads, x.id ≠ nl.id) ∧
          nl.createdAt = nl.updatedAt ∧ (addLead l fid now s).1 = none) ∧
      (∀ d : DealInput, (∀ x ∈ s.deals, x.id ≠ fid) →
        ∃ nd : Deal, (addDeal d fid now s).2.deals = s.deals ++ [nd] ∧
          nd.id = fid ∧ (∀ x ∈ s.deals, x.id ≠ nd.id) ∧
          nd.createdAt = nd.updatedAt ∧ (addDeal d fid now s).1 = none) ∧
      (∀ t : TaskInput, (∀ x ∈ s.tasks, x.id ≠ fid) →
        ∃ nt : Task, (addTask t fid now s).2.tasks = s.tasks ++ [nt] ∧
          nt.id = fid ∧ (∀ x ∈ s.tasks, x.id ≠ nt.id) ∧
          nt.createdAt = nt.updatedAt ∧ (addTask t fid now s).1 = none) :=
  fun _ _ _ =>
    ⟨fun _ hfresh => ⟨_, rfl, rfl, hfresh, rfl, rfl⟩,
     fun _ hfresh => ⟨_, rfl, rfl, hfresh, rfl, rfl⟩,
     fun _ hfresh => ⟨_, rfl, rfl, hfresh, rfl, rfl⟩,
     fun _ hfresh => ⟨_, rfl, rfl, hfresh, rfl, rfl⟩⟩

/-- Witness for C1: adding a contact to the one-contact store with the
fresh id u1 appends a record with id u1, equal timestamps, and yields no
return value. -/
theorem C1_add_appends_witness :
    ∃ nc : Contact,
      (addContact exContactInput2 "u1" 9 exState).2.contacts = exState.contacts ++ [nc] ∧
      nc.id = "u1" ∧ (∀ x ∈ exState.contacts, x.id ≠ nc.id) ∧
      nc.createdAt = nc.updatedAt ∧ (addContact exContactInput2 "u1" 9 exState).1 = none :=
  (C1_add_appends "u1" 9 exState).1 exContactInput2 (by decide)

/-- C2 counterexample: updating the record with id a through the
well-typed partial that carries createdAt, at wall-clock time 7 (the
record's current updatedAt), changes createdAt and does not strictly
increase updatedAt, although a record with that id exists. -/
theorem C2_update_counterexample :
    exContact ∈ exState.contacts ∧ exContact.id = "a" ∧
    ∃ c' : Contact, (updateContact "a" exUpdateCreatedAt 7 exState).contacts = [c'] ∧
      c'.createdAt ≠ exContact.createdAt ∧ ¬ exContact.updatedAt < c'.updatedAt := by
  refine ⟨by decide, rfl, mergeContact exContact exUpdateCreatedAt 7, by decide, by decide, by decide⟩

/-- C2 (amended): when a record with the target id exists, every field
the partial does not supply keeps its previous value; createdAt is
unchanged provided the partial does not supply createdAt; and updatedAt
becomes the mutation's wall-clock time, hence strictly increases
whenever that time is strictly later than the record's previous
updatedAt. -/
theorem C2_update_preserves_fields :
    ∀ (iD : String) (now : Time) (s : CRMState),
      (∀ (u : ContactUpdate) (i : Nat) (c : Contact),
        s.contacts[i]? = some c → c.id = iD → u.createdAt = none → c.updatedAt < now →
        ∃ c' : Contact, (updateContact iD u now s).contacts[i]? = some c' ∧
          (u.id = none → c'.id = c.id) ∧
          (u.name = none → c'.name = c.name) ∧
          (u.email = none → c'.email = c.email) ∧
          (u.phone = none → c'.phone = c.phone) ∧
          (u.company = none → c'.company = c.company) ∧
          (u.position = none → c'.position = c.position) ∧
          (u.tags = none → c'.tags = c.tags) ∧
          (u.notes = none → c'.notes = c.notes) ∧
          c'.createdAt = c.createdAt ∧ c.updatedAt < c'.updatedAt) ∧
      (∀ (u : LeadUpdate) (i : Nat) (l : Lead),
        s.leads[i]? = some l → l.id = iD → u.createdAt = none → l.updatedAt < now →
        ∃ l' : Lead, (updateLead iD u now s).leads[i]? = some l' ∧
          (u.id = none → l'.id = l.id) ∧
          (u.name = none → l'.name = l.name) ∧
          (u.email = none → l'.email = l.email) ∧
          (u.phone = none → l'.phone = l.phone) ∧
          (u.company = none → l'.company = l.company) ∧
          (u.value = none → l'.value = l.value) ∧
          (u.status = none → l'.status = l.status) ∧
          (u.assignedTo = none → l'.assignedTo = l.assignedTo) ∧
          (u.source = none → l'.source = l.source) ∧
          (u.notes = none → l'.notes = l.notes) ∧
          l'.createdAt = l.createdAt ∧ l.updatedAt < l'.updatedAt) ∧
      (∀ (u : DealUpdate) (i : Nat) (d : Deal),
        s.deals[i]? = some d → d.id = iD → u.createdAt = none → d.updatedAt < now →
        ∃ d' : Deal, (updateDeal iD u now s).deals[i]? = some d' ∧
          (u.id = none → d'.id = d.id) ∧
          (u.title = none → d'.title = d.title) ∧
          (u.value = none → d'.value = d.value) ∧
          (u.stage = none → d'.stage = d.stage) ∧
          (u.contactId = none → d'.contactId = d.contactId) ∧
          (u.assignedTo = none → d'.assignedTo = d.assignedTo) ∧
          (u.closeDate = none → d'.closeDate = d.closeDate) ∧
          (u.probability = none → d'.probability = d.probability) ∧
          (u.notes = none → d'.notes = d.notes) ∧
          d'.createdAt = d.createdAt ∧ d.updatedAt < d'.updatedAt) ∧
      (∀ (u : TaskUpdate) (i : Nat) (t : Task),
        s.tasks[i]? = some t → t.id = iD → u.createdAt = none → t.updatedAt < now →
        ∃ t' : Task, (updateTask iD u now s).tasks[i]? = some t' ∧
          (u.id = none → t'.id = t.id) ∧
          (u.title = none → t'.title = t.title) ∧
          (u.description = none → t'.description = t.description) ∧
          (u.dueDate = none → t'.dueDate = t.dueDate) ∧
          (u.priority = none → t'.priority = t.priority) ∧
          (u.status = none → t'.status = t.status) ∧
          (u.assignedTo = none → t'.assignedTo = t.assignedTo) ∧
          (u.relatedTo = none → t'.relatedTo = t.relatedTo) ∧
          t'.createdAt = t.createdAt ∧ t.updatedAt < t'.updatedAt) := by
  intro iD now s
  refine ⟨?_, ?_, ?_, ?_⟩
  · intro u i c hget hid hca hlt
    refine ⟨mergeContact c u now, ?_, fun h => by simp [mergeContact, h],
      fun h => by simp [mergeContact, h], fun h => by simp [mergeContact, h],
      fun h => by simp [mergeContact, h], fun h => by simp [mergeContact, h],
      fun h => by simp [mergeContact, h], fun h => by simp [mergeContact, h],
      fun h => by simp [mergeContact, h], by simp [mergeContact, hca], hlt⟩
    show (s.contacts.map _)[i]? = _
    rw [List.getElem?_map, hget]
    simp [hid]
  · intro u i l hget hid hca hlt
    refine ⟨mergeLead l u now, ?_, fun h => by simp [mergeLead, h],
      fun h => by simp [mergeLead, h], fun h => by simp [mergeLead, h],
      fun h => by simp [mergeLead, h], fun h => by simp [mergeLead, h],
      fun h => by simp [mergeLead, h], fun h => by simp [mergeLead, h],
      fun h => by simp [mergeLead, h], fun h => by simp [mergeLead, h],
      fun h => by simp [mergeLead, h], by simp [mergeLead, hca], hlt⟩
    show (s.leads.map _)[i]? = _
    rw [List.getElem?_map, hget]
    simp [hid]
  · intro u i d hget hid hca hlt
    refine ⟨mergeDeal d u now, ?_, fun h => by simp [mergeDeal, h],
      fun h => by simp [mergeDeal, h], fun h => by simp [mergeDeal, h],
      fun h => by simp [mergeDeal, h], fun h => by simp [mergeDeal, h],
      fun h => by simp [mergeDeal, h], fun h => by simp [mergeDeal, h],
      fun h => by simp [mergeDeal, h], fun h => by simp [mergeDeal, h],
      by simp [mergeDeal, hca], hlt⟩
    show (s.deals.map _)[i]? = _
    rw [List.getElem?_map, hget]
    simp [hid]
  · intro u i t hget hid hca hlt
    refine ⟨mergeTask t u now, ?_, fun h => by simp [mergeTask, h],
      fun h => by simp [mergeTask, h], fun h => by simp [mergeTask, h],
      fun h => by simp [mergeTask, h], fun h => by simp [mergeTask, h],
      fun h => by simp [mergeTask, h], fun h => by simp [mergeTask, h],
      fun h => by simp [mergeTask, h], by simp [mergeTask, hca], hlt⟩
    show (s.tasks.map _)[i]? = _
    rw [List.getElem?_map, hget]
    simp [hid]

/-- Witness for C2: updating the record a of the one-contact store with
the name-only partial at time 9 keeps all unsupplied fields and
createdAt while strictly increasing updatedAt. -/
theorem C2_update_preserves_fields_witness :
    ∃ c' : Contact, (updateContact "a" exUpdateName 9 exState).contacts[0]? = some c' ∧
      (exUpdateName.id = none → c'.id = exContact.id) ∧
      (exUpdateName.name = none → c'.name = exContact.name) ∧
      (exUpdateName.email = none → c'.email = exContact.email) ∧
      (exUpdateName.phone = none → c'.phone = exContact.phone) ∧
      (exUpdateName.company = none → c'.company = exContact.company) ∧
      (exUpdateName.position = none → c'.position = exContact.position) ∧
      (exUpdateName.tags = none → c'.tags = exContact.tags) ∧
      (exUpdateName.notes = none → c'.notes = exContact.notes) ∧
      c'.createdAt = exContact.createdAt ∧ exContact.updatedAt < c'.updatedAt :=
  (C2_update_preserves_fields "a" 9 exState).1 exUpdateName 0 exContact rfl rfl rfl (by decide)

/-- C9: an update never inserts, removes or reorders records, whether or
not a record with the target id exists: the collection keeps its length,
every record whose id differs stays unchanged at its position, and a
record whose id matches is replaced in place by its merge. -/
theorem C9_update_preserves_shape :
    ∀ (iD : String) (now : Time) (s : CRMState),
      (∀ u : ContactUpdate,
        (updateContact iD u now s).contacts.length = s.contacts.length ∧
        (∀ (i : Nat) (c : Contact), s.contacts[i]? = some c → c.id ≠ iD →
          (updateContact iD u now s).contacts[i]? = some c) ∧
        (∀ (i : Nat) (c : Contact), s.contacts[i]? = some c → c.id = iD →
          (updateContact iD u now s).contacts[i]? = some (mergeContact c u now))) ∧
      (∀ u : LeadUpdate,
        (updateLead iD u now s).leads.length = s.leads.length ∧
        (∀ (i : Nat) (l : Lead), s.leads[i]? = some l → l.id ≠ iD →
          (updateLead iD u now s).leads[i]? = some l) ∧
        (∀ (i : Nat) (l : Lead), s.leads[i]? = some l → l.id = iD →
          (updateLead iD u now s).leads[i]? = some (mergeLead l u now))) ∧
      (∀ u : DealUpdate,
        (updateDeal iD u now s).deals.length = s.deals.length ∧
        (∀ (i : Nat) (d : Deal), s.deals[i]? = some d → d.id ≠ iD →
          (updateDeal iD u now s).deals[i]? = some d) ∧
        (∀ (i : Nat) (d : Deal), s.deals[i]? = some d → d.id = iD →
          (updateDeal iD u now s).deals[i]? = some (mergeDeal d u now))) ∧
      (∀ u : TaskUpdate,
        (updateTask iD u now s).tasks.length = s.tasks.length ∧
        (∀ (i : Nat) (t : Task), s.tasks[i]? = some t → t.id ≠ iD →
          (updateTask iD u now s).tasks[i]? = some t) ∧
        (∀ (i : Nat) (t : Task), s.tasks[i]? = some t → t.id = iD →
          (updateTask iD u now s).tasks[i]? = some (mergeTask t u now))) := by
  intro iD now s
  refine ⟨fun u => ⟨List.length_map _ _, fun i c hget hne => ?_, fun i c hget heq => ?_⟩,
    fun u => ⟨List.length_map _ _, fun i l hget hne => ?_, fun i l hget heq => ?_⟩,
    fun u => ⟨List.length_map _ _, fun i d hget hne => ?_, fun i d hget heq => ?_⟩,
    fun u => ⟨List.length_map _ _, fun i t hget hne => ?_, fun i t hget heq => ?_⟩⟩
  · show (s.contacts.map _)[i]? = _
    rw [List.getElem?_map, hget]
    simp [hne]
  · show (s.contacts.map _)[i]? = _
    rw [List.getElem?_map, hget]
    simp [heq]
  · show (s.leads.map _)[i]? = _
    rw [List.getElem?_map, hget]
    simp [hne]
  · show (s.leads.map _)[i]? = _
    rw [List.getElem?_map, hget]
    simp [heq]
  · show (s.deals.map _)[i]? = _
    rw [List.getElem?_map, hget]
    simp [hne]
  · show (s.deals.map _)[i]? = _
    rw [List.getElem?_map, hget]
    simp [heq]
  · show (s.tasks.map _)[i]? = _
    rw [List.getElem?_map, hget]
    simp [hne]
  · show (s.tasks.map _)[i]? = _
    rw [List.getElem?_map, hget]
    simp [heq]

/-- Witness for C9: the one-contact store keeps its length under an
update aimed at the absent id b, and the record with id a is merged in
place by an update aimed at a. -/
theorem C9_update_preserves_shape_witness :
    (updateContact "b" exUpdateName 0 exState).contacts[0]? = some exContact ∧
    (updateContact "a" exUpdateName 9 exState).contacts[0]? =
      some (mergeContact exContact exUpdateName 9) :=
  ⟨((C9_update_preserves_shape "b" 0 exState).1 exUpdateName).2.1 0 exContact rfl (by decide),
   ((C9_update_preserves_shape "a" 9 exState).1 exUpdateName).2.2 0 exContact rfl rfl⟩

/-- C5 counterexample: a deal whose id is the string prospecting, in
stage proposal, dropped onto the prospecting stage column. The target
stage resolves to prospecting, which differs from the deal's stage, so
the claim demands an update; the handler's extra active-equals-over
guard suppresses it, so no mutation is issued. -/
theorem C5_dragend_counterexample :
    stageOfId "prospecting" = some .prospecting ∧
    exDealPros.id = "prospecting" ∧ exDealPros.stage ≠ .prospecting ∧
    resolveTarget [exDealPros] "prospecting" = some .prospecting ∧
    handleDragEnd [exDealPros] "prospecting" (some "prospecting") = none := by
  refine ⟨rfl, rfl, by decide, rfl, rfl⟩

/-- C5 (amended): the drag-end handler issues exactly one stage update,
for the dragged deal, precisely when there is a drop target, the target
stage resolves (stage column first, else the stage of the deal dropped
onto), the drop target's id differs from the dragged id, the dragged
deal is found, and its stage differs from the target; in every other
case it performs no store mutation. -/
theorem C5_dragend_update :
    (∀ (deals : List Deal) (activeId : String),
      handleDragEnd deals activeId none = none) ∧
    (∀ (deals : List Deal) (activeId overId : String),
      resolveTarget deals overId = none →
      handleDragEnd deals activeId (some overId) = none) ∧
    (∀ (deals : List Deal) (overId : String) (st : Stage),
      resolveTarget deals overId = some st →
      handleDragEnd deals overId (some overId) = none) ∧
    (∀ (deals : List Deal) (activeId overId : String) (st : Stage),
      resolveTarget deals overId = some st → activeId ≠ overId →
      deals.find? (fun d => d.id == activeId) = none →
      handleDragEnd deals activeId (some overId) = none) ∧
    (∀ (deals : List Deal) (activeId overId : String) (st : Stage) (d : Deal),
      resolveTarget deals overId = some st → activeId ≠ overId →
      deals.find? (fun x => x.id == activeId) = some d → d.stage = st →
      handleDragEnd deals activeId (some overId) = none) ∧
    (∀ (deals : List Deal) (activeId overId : String) (st : Stage) (d : Deal),
      resolveTarget deals overId = some st → activeId ≠ overId →
      deals.find? (fun x => x.id == activeId) = some d → d.stage ≠ st →
      handleDragEnd deals activeId (some overId) = some (d.id, st)) := by
  refine ⟨fun _ _ => rfl, ?_, ?_, ?_, ?_, ?_⟩
  · intro deals activeId overId h
    simp [handleDragEnd, h]
  · intro deals overId st h
    simp [handleDragEnd, h]
  · intro deals activeId overId st h hne hfind
    simp [handleDragEnd, h, hne, hfind]
  · intro deals activeId overId st d h hne hfind hst
    simp [handleDragEnd, h, hne, hfind, hst]
  · intro deals activeId overId st d h hne hfind hst
    simp [handleDragEnd, h, hne, hfind, hst]

/-- Witness for C5: dragging the prospecting-stage deal d1 onto the
qualification stage column issues exactly the update moving d1 to
qualification. -/
theorem C5_dragend_update_witness :
    handleDragEnd [exDeal] "d1" (some "qualification") = some ("d1", .qualification) := by
  have h := C5_dragend_update.2.2.2.2.2 [exDeal] "d1" "qualification" .qualification exDeal
    rfl (by decide) rfl (by decide)
  simpa [exDeal] using h

/-- C8: a task appears in the filtered task view iff the lowercased
search term occurs in its lowercased title or description and it meets
the status and priority exact-match filters whose inactive value is the
sentinel all; a lead appears in the filtered lead view iff the search
term occurs in its lowercased name, email or company and it meets the
status filter; all active filters are conjoined. -/
theorem C8_filter_characterization :
    (∀ (tasks : List Task) (search statusFilter priorityFilter : String) (t : Task),
      t ∈ filteredTasks tasks search statusFilter priorityFilter ↔
        t ∈ tasks ∧
        (jsIncludes (toLowerStr t.title) (toLowerStr search) = true ∨
          jsIncludes (toLowerStr t.description) (toLowerStr search) = true) ∧
        (statusFilter = "all" ∨ t.status.str = statusFilter) ∧
        (priorityFilter = "all" ∨ t.priority.str = priorityFilter)) ∧
    (∀ (leads : List Lead) (search statusFilter : String) (l : Lead),
      l ∈ filteredLeads leads search statusFilter ↔
        l ∈ leads ∧
        (jsIncludes (toLowerStr l.name) (toLowerStr search) = true ∨
          jsIncludes (toLowerStr l.email) (toLowerStr search) = true ∨
          jsIncludes (toLowerStr l.company) (toLowerStr search) = true) ∧
        (statusFilter = "all" ∨ l.status.str = statusFilter)) := by
  constructor
  · intro tasks search statusFilter priorityFilter t
    simp only [filteredTasks, List.mem_filter, Bool.and_eq_true, Bool.or_eq_true, beq_iff_eq]
    tauto
  · intro leads search statusFilter l
    simp only [filteredLeads, List.mem_filter, Bool.and_eq_true, Bool.or_eq_true, beq_iff_eq]
    tauto

/-- Every reachable store state has pairwise distinct ids per collection
and all timestamps bounded: createdAt at most updatedAt, updatedAt at
most the last mutation's clock. -/
theorem reach_storeInv :
    ∀ (s : CRMState) (t : Time), Reach s t →
      ((s.contacts.map Contact.id).Nodup ∧ (s.leads.map Lead.id).Nodup ∧
        (s.deals.map Deal.id).Nodup ∧ (s.tasks.map Task.id).Nodup) ∧
      ((∀ c ∈ s.contacts, c.createdAt ≤ c.updatedAt ∧ c.updatedAt ≤ t) ∧
        (∀ l ∈ s.leads, l.createdAt ≤ l.updatedAt ∧ l.updatedAt ≤ t) ∧
        (∀ d ∈ s.deals, d.createdAt ≤ d.updatedAt ∧ d.updatedAt ≤ t) ∧
        (∀ x ∈ s.tasks, x.createdAt ≤ x.updatedAt ∧ x.updatedAt ≤ t)) := by
  intro s t h
  induction h with
  | init =>
    exact ⟨⟨List.nodup_nil, List.nodup_nil, List.nodup_nil, List.nodup_nil⟩,
      fun c hc => absurd hc (List.not_mem_nil c),
      fun l hl => absurd hl (List.not_mem_nil l),
      fun d hd => absurd hd (List.not_mem_nil d),
      fun x hx => absurd hx (List.not_mem_nil x)⟩
  | @step s t op now hr hle hfresh hsafe ih =>
    obtain ⟨⟨hn1, hn2, hn3, hn4⟩, ht1, ht2, ht3, ht4⟩ := ih
    cases op with
    | addC c fid =>
      refine ⟨⟨nodup_ids_append Contact.id hn1 hfresh, hn2, hn3, hn4⟩, ?_,
        times_bound_sub Lead.createdAt Lead.updatedAt hle (fun y hy => hy) ht2,
        times_bound_sub Deal.createdAt Deal.updatedAt hle (fun y hy => hy) ht3,
        times_bound_sub Task.createdAt Task.updatedAt hle (fun y hy => hy) ht4⟩
      intro y hy
      rcases List.mem_append.1 hy with hm | hm
      · exact ⟨(ht1 y hm).1, le_trans (ht1 y hm).2 hle⟩
      · cases List.mem_singleton.1 hm
        exact ⟨le_refl now, le_refl now⟩
    | updC iD u =>
      have hids : (s.contacts.map fun c =>
          if c.id == iD then mergeContact c u now else c).map Contact.id =
          s.contacts.map Contact.id :=
        map_proj_if_eq s.contacts Contact.id (fun c => c.id == iD)
          (fun c => mergeContact c u now) (fun x _ => by simp [mergeContact, hsafe.1])
      refine ⟨⟨?_, hn2, hn3, hn4⟩,
        times_bound_map s.contacts (fun c => c.id == iD) (fun c => mergeContact c u now)
          Contact.createdAt Contact.updatedAt t now hle ht1
          (fun x _ => ⟨by simp [mergeContact, hsafe.2], rfl⟩),
        times_bound_sub Lead.createdAt Lead.updatedAt hle (fun y hy => hy) ht2,
        times_bound_sub Deal.createdAt Deal.updatedAt hle (fun y hy => hy) ht3,
        times_bound_sub Task.createdAt Task.updatedAt hle (fun y hy => hy) ht4⟩
      show ((s.contacts.map fun c =>
        if c.id == iD then mergeContact c u now else c).map Contact.id).Nodup
      rw [hids]
      exact hn1
    | delC iD =>
      exact ⟨⟨nodup_ids_filter Contact.id _ hn1, hn2, hn3, hn4⟩,
        times_bound_sub Contact.createdAt Contact.updatedAt hle
          (fun y hy => List.mem_of_mem_filter hy) ht1,
        times_bound_sub Lead.createdAt Lead.updatedAt hle (fun y hy => hy) ht2,
        times_bound_sub Deal.createdAt Deal.updatedAt hle (fun y hy => hy) ht3,
        times_bound_sub Task.createdAt Task.updatedAt hle (fun y hy => hy) ht4⟩
    | addL l fid =>
      refine ⟨⟨hn1, nodup_ids_append Lead.id hn2 hfresh, hn3, hn4⟩,
        times_bound_sub Contact.createdAt Contact.updatedAt hle (fun y hy => hy) ht1, ?_,
        times_bound_sub Deal.createdAt Deal.updatedAt hle (fun y hy => hy) ht3,
        times_bound_sub Task.createdAt Task.updatedAt hle (fun y hy => hy) ht4⟩
      intro y hy
      rcases List.mem_append.1 hy with hm | hm
      · exact ⟨(ht2 y hm).1, le_trans (ht2 y hm).2 hle⟩
      · cases List.mem_singleton.1 hm
        exact ⟨le_refl now, le_refl now⟩
    | updL iD u =>
      have hids : (s.leads.map fun x =>
          if x.id == iD then mergeLead x u now else x).map Lead.id =
          s.leads.map Lead.id :=
        map_proj_if_eq s.leads Lead.id (fun x => x.id == iD)
          (fun x => mergeLead x u now) (fun x _ => by simp [mergeLead, hsafe.1])
      refine ⟨⟨hn1, ?_, hn3, hn4⟩,
        times_bound_sub Contact.createdAt Contact.updatedAt hle (fun y hy => hy) ht1,
        times_bound_map s.leads (fun x => x.id == iD) (fun x => mergeLead x u now)
          Lead.createdAt Lead.updatedAt t now hle ht2
          (fun x _ => ⟨by simp [mergeLead, hsafe.2], rfl⟩),
        times_bound_sub Deal.createdAt Deal.updatedAt hle (fun y hy => hy) ht3,
        times_bound_sub Task.createdAt Task.updatedAt hle (fun y hy => hy) ht4⟩
      show ((s.leads.map fun x =>
        if x.id == iD then mergeLead x u now else x).map Lead.id).Nodup
      rw [hids]
      exact hn2
    | delL iD =>
      exact ⟨⟨hn1, nodup_ids_filter Lead.id _ hn2, hn3, hn4⟩,
        times_bound_sub Contact.createdAt Contact.updatedAt hle (fun y hy => hy) ht1,
        times_bound_sub Lead.createdAt Lead.updatedAt hle
          (fun y hy => List.mem_of_mem_filter hy) ht2,
        times_bound_sub Deal.createdAt Deal.updatedAt hle (fun y hy => hy) ht3,
        times_bound_sub Task.createdAt Task.updatedAt hle (fun y hy => hy) ht4⟩
    | addD d fid =>
      refine ⟨⟨hn1, hn2, nodup_ids_append Deal.id hn3 hfresh, hn4⟩,
        times_bound_sub Contact.createdAt Contact.updatedAt hle (fun y hy => hy) ht1,
        times_bound_sub Lead.createdAt Lead.updatedAt hle (fun y hy => hy) ht2, ?_,
        times_bound_sub Task.createdAt Task.updatedAt hle (fun y hy => hy) ht4⟩
      intro y hy
      rcases List.mem_append.1 hy with hm | hm
      · exact ⟨(ht3 y hm).1, le_trans (ht3 y hm).2 hle⟩
      · cases List.mem_singleton.1 hm
        exact ⟨le_refl now, le_refl now⟩
    | updD iD u =>
      have hids : (s.deals.map fun x =>
          if x.id == iD then mergeDeal x u now else x).map Deal.id =
          s.deals.map Deal.id :=
        map_proj_if_eq s.deals Deal.id (fun x => x.id == iD)
          (fun x => mergeDeal x u now) (fun x _ => by simp [mergeDeal, hsafe.1])
      refine ⟨⟨hn1, hn2, ?_, hn4⟩,
        times_bound_sub Contact.createdAt Contact.updatedAt hle (fun y hy => hy) ht1,
        times_bound_sub Lead.createdAt Lead.updatedAt hle (fun y hy => hy) ht2,
        times_bound_map s.deals (fun x => x.id == iD) (fun x => mergeDeal x u now)
          Deal.createdAt Deal.updatedAt t now hle ht3
          (fun x _ => ⟨by simp [mergeDeal, hsafe.2], rfl⟩),
        times_bound_sub Task.createdAt Task.updatedAt hle (fun y hy => hy) ht4⟩
      show ((s.deals.map fun x =>
        if x.id == iD then mergeDeal x u now else x).map Deal.id).Nodup
      rw [hids]
      exact hn3
    | delD iD =>
      exact ⟨⟨hn1, hn2, nodup_ids_filter Deal.id _ hn3, hn4⟩,
        times_bound_sub Contact.createdAt Contact.updatedAt hle (fun y hy => hy) ht1,
        times_bound_sub Lead.createdAt Lead.updatedAt hle (fun y hy => hy) ht2,
        times_bound_sub Deal.createdAt Deal.updatedAt hle
          (fun y hy => List.mem_of_mem_filter hy) ht3,
        times_bound_sub Task.createdAt Task.updatedAt hle (fun y hy => hy) ht4⟩
    | addT tk fid =>
      refine ⟨⟨hn1, hn2, hn3, nodup_ids_append Task.id hn4 hfresh⟩,
        times_bound_sub Contact.createdAt Contact.updatedAt hle (fun y hy => hy) ht1,
        times_bound_sub Lead.createdAt Lead.updatedAt hle (fun y hy => hy) ht2,
        times_bound_sub Deal.createdAt Deal.updatedAt hle (fun y hy => hy) ht3, ?_⟩
      intro y hy
      rcases List.mem_append.1 hy with hm | hm
      · exact ⟨(ht4 y hm).1, le_trans (ht4 y hm).2 hle⟩
      · cases List.mem_singleton.1 hm
        exact ⟨le_refl now, le_refl now⟩
    | updT iD u =>
      have hids : (s.tasks.map fun x =>
          if x.id == iD then mergeTask x u now else x).map Task.id =
          s.tasks.map Task.id :=
        map_proj_if_eq s.tasks Task.id (fun x => x.id == iD)
          (fun x => mergeTask x u now) (fun x _ => by simp [mergeTask, hsafe.1])
      refine ⟨⟨hn1, hn2, hn3, ?_⟩,
        times_bound_sub Contact.createdAt Contact.updatedAt hle (fun y hy => hy) ht1,
        times_bound_sub Lead.createdAt Lead.updatedAt hle (fun y hy => hy) ht2,
        times_bound_sub Deal.createdAt Deal.updatedAt hle (fun y hy => hy) ht3,
        times_bound_map s.tasks (fun x => x.id == iD) (fun x => mergeTask x u now)
          Task.createdAt Task.updatedAt t now hle ht4
          (fun x _ => ⟨by simp [mergeTask, hsafe.2], rfl⟩)⟩
      show ((s.tasks.map fun x =>
        if x.id == iD then mergeTask x u now else x).map Task.id).Nodup
      rw [hids]
      exact hn4
    | delT iD =>
      exact ⟨⟨hn1, hn2, hn3, nodup_ids_filter Task.id _ hn4⟩,
        times_bound_sub Contact.createdAt Contact.updatedAt hle (fun y hy => hy) ht1,
        times_bound_sub Lead.createdAt Lead.updatedAt hle (fun y hy => hy) ht2,
        times_bound_sub Deal.createdAt Deal.updatedAt hle (fun y hy => hy) ht3,
        times_bound_sub Task.createdAt Task.updatedAt hle
          (fun y hy => List.mem_of_mem_filter hy) ht4⟩

/-- C4 counterexample: the well-typed operation sequence add a, add b,
update b with the partial reassigning id to a and createdAt to 100
yields duplicate ids in the contacts collection, a record whose id
changed after its add, and a record with updatedAt strictly below
createdAt. -/
theorem C4_invariants_counterexample :
    exBadState.contacts.map Contact.id = ["a", "a"] ∧
    ¬ (exBadState.contacts.map Contact.id).Nodup ∧
    ∃ c ∈ exBadState.contacts, c.updatedAt < c.createdAt := by
  exact ⟨by decide, by decide, by decide⟩

/-- C4 (amended): along any trace from the empty store whose generated
ids are fresh, whose mutation clock is nondecreasing, and whose update
partials never carry id or createdAt (as holds for every update issued
in this program), each collection's ids stay pairwise distinct and every
record satisfies createdAt at most updatedAt; moreover such updates
never change any record's id. -/
theorem C4_reachable_invariants :
    (∀ (s : CRMState) (t : Time), Reach s t →
      (s.contacts.map Contact.id).Nodup ∧ (s.leads.map Lead.id).Nodup ∧
      (s.deals.map Deal.id).Nodup ∧ (s.tasks.map Task.id).Nodup ∧
      (∀ c ∈ s.contacts, c.createdAt ≤ c.updatedAt) ∧
      (∀ l ∈ s.leads, l.createdAt ≤ l.updatedAt) ∧
      (∀ d ∈ s.deals, d.createdAt ≤ d.updatedAt) ∧
      (∀ x ∈ s.tasks, x.createdAt ≤ x.updatedAt)) ∧
    (∀ (iD : String) (u : ContactUpdate) (now : Time) (s : CRMState), u.id = none →
      (updateContact iD u now s).contacts.map Contact.id = s.contacts.map Contact.id) ∧
    (∀ (iD : String) (u : LeadUpdate) (now : Time) (s : CRMState), u.id = none →
      (updateLead iD u now s).leads.map Lead.id = s.leads.map Lead.id) ∧
    (∀ (iD : String) (u : DealUpdate) (now : Time) (s : CRMState), u.id = none →
      (updateDeal iD u now s).deals.map Deal.id = s.deals.map Deal.id) ∧
    (∀ (iD : String) (u : TaskUpdate) (now : Time) (s : CRMState), u.id = none →
      (updateTask iD u now s).tasks.map Task.id = s.tasks.map Task.id) := by
  refine ⟨?_, ?_, ?_, ?_, ?_⟩
  · intro s t h
    obtain ⟨⟨hn1, hn2, hn3, hn4⟩, ht1, ht2, ht3, ht4⟩ := reach_storeInv s t h
    exact ⟨hn1, hn2, hn3, hn4, fun c hc => (ht1 c hc).1, fun l hl => (ht2 l hl).1,
      fun d hd => (ht3 d hd).1, fun x hx => (ht4 x hx).1⟩
  · intro iD u now s hu
    exact map_proj_if_eq s.contacts Contact.id (fun c => c.id == iD)
      (fun c => mergeContact c u now) (fun x _ => by simp [mergeContact, hu])
  · intro iD u now s hu
    exact map_proj_if_eq s.leads Lead.id (fun x => x.id == iD)
      (fun x => mergeLead x u now) (fun x _ => by simp [mergeLead, hu])
  · intro iD u now s hu
    exact map_proj_if_eq s.deals Deal.id (fun x => x.id == iD)
      (fun x => mergeDeal x u now) (fun x _ => by simp [mergeDeal, hu])
  · intro iD u now s hu
    exact map_proj_if_eq s.tasks Task.id (fun x => x.id == iD)
      (fun x => mergeTask x u now) (fun x _ => by simp [mergeTask, hu])

/-- Witness for C4: the one-step trace that adds a contact with fresh id
a at time 5 reaches a state satisfying every invariant. -/
theorem C4_reachable_invariants_witness :
    ((applyOp (Op.addC exContactInput "a") 5 emptyCRM).contacts.map Contact.id).Nodup ∧
    ((applyOp (Op.addC exContactInput "a") 5 emptyCRM).leads.map Lead.id).Nodup ∧
    ((applyOp (Op.addC exContactInput "a") 5 emptyCRM).deals.map Deal.id).Nodup ∧
    ((applyOp (Op.addC exContactInput "a") 5 emptyCRM).tasks.map Task.id).Nodup ∧
    (∀ c ∈ (applyOp (Op.addC exContactInput "a") 5 emptyCRM).contacts,
      c.createdAt ≤ c.updatedAt) ∧
    (∀ l ∈ (applyOp (Op.addC exContactInput "a") 5 emptyCRM).leads,
      l.createdAt ≤ l.updatedAt) ∧
    (∀ d ∈ (applyOp (Op.addC exContactInput "a") 5 emptyCRM).deals,
      d.createdAt ≤ d.updatedAt) ∧
    (∀ x ∈ (applyOp (Op.addC exContactInput "a") 5 emptyCRM).tasks,
      x.createdAt ≤ x.updatedAt) :=
  C4_reachable_invariants.1 (applyOp (Op.addC exContactInput "a") 5 emptyCRM) 5
    (Reach.step (Op.addC exContactInput "a") 5 Reach.init (by decide)
      (fun x hx => absurd hx (List.not_mem_nil x)) trivial)

end CRM
